import Mathlib

/-!
Verification of the `HealthDatabase` storage wrapper (src/etl/healthdatabase.py),
a context-managed SQLite wrapper.  We shallowly embed its state and operations:
the database file becomes an ordered association list of named tables (matching
the order of rows in the sqlite_schema catalog, which is creation order), and
each method becomes a pure function on that state.  SQL statement strings that
the Python code builds by formatting are embedded by the semantics of the
specific statement issued, assuming well-formed identifiers and values (the
injection issue is noted in the spec as out of scope).
-/

namespace Runnersdash

/-! ## Session model (`__enter__` / `__exit__`)

A session holds `self.conn` and `self.cursor`, each of which is `None` until
`__enter__` runs.  We model each slot as `Option Unit`: calling `.close()` on
`None` raises `AttributeError`; closing a live resource succeeds. -/

/-- Observable actions performed during `__exit__`: closing the cursor,
closing the connection, and printing the "Not closeable." diagnostic. -/
inductive ExitEvent
  | closedCursor
  | closedConn
  | diagnostic
deriving DecidableEq, Repr

/-- The only error the `__exit__` try block can raise: `AttributeError`,
from calling `.close()` on a `None` attribute. -/
inductive PyError
  | attributeError
deriving DecidableEq, Repr

/-- The `conn` / `cursor` attributes of a `HealthDatabase` instance.
`none` models a Python `None` (set by `__init__`, before `__enter__`). -/
structure SessionState where
  conn : Option Unit
  cursor : Option Unit
deriving DecidableEq, Repr

/-- A freshly constructed `HealthDatabase` (after `__init__`): both the
connection and the cursor attributes are `None`. -/
def sessionInit : SessionState := ⟨none, none⟩

/-- `__enter__`: opens the connection and obtains a cursor from it. -/
def sessionEnter (_s : SessionState) : SessionState := ⟨some (), some ()⟩

/-- The try block of `__exit__`: `self.cursor.close()` then
`self.conn.close()`.  Returns the actions performed so far together with the
error raised, if any (an absent attribute raises `AttributeError` and stops
the block at that point). -/
def exitTryBlock (s : SessionState) : List ExitEvent × Option PyError :=
  match s.cursor with
  | none => ([], some PyError.attributeError)
  | some _ =>
    match s.conn with
    | none => ([ExitEvent.closedCursor], some PyError.attributeError)
    | some _ => ([ExitEvent.closedCursor, ExitEvent.closedConn], none)

/-- `HealthDatabase.__exit__`: runs the try block; on `AttributeError` it
prints "Not closeable." and returns `True`; otherwise it falls off the end of
the function (returning Python `None`, modelled as `none`).  The result is the
full action trace paired with the returned value.  `__exit__` itself never
raises: the only error its body can raise is caught. -/
def sessionExit (s : SessionState) : List ExitEvent × Option Bool :=
  match exitTryBlock s with
  | (evs, none) => (evs, none)
  | (evs, some PyError.attributeError) => (evs ++ [ExitEvent.diagnostic], some true)

/-- The `with` statement protocol around the body outcome: if the body raised
exception `e` (`bodyExc = some e`), the exception propagates to the caller
unless `__exit__` returns a truthy value, in which case it is suppressed.
The result is the exception the caller observes, if any. -/
def withScopeResult (s : SessionState) (bodyExc : Option String) : Option String :=
  match bodyExc with
  | none => none
  | some e => if (sessionExit s).2.getD false then none else some e

/-! ## Database state model

A table is its declared column list (name, declared type) plus its rows, each
row an ordered tuple of values (modelled as strings).  The database is the
ordered list of named tables. -/

/-- A table: declared columns (name and declared type string, in declaration
order) and rows in insertion order. -/
structure Table where
  cols : List (String × String)
  rows : List (List String)
deriving DecidableEq, Repr

/-- The database: named tables in catalog (creation) order. -/
structure DB where
  tables : List (String × Table)
deriving DecidableEq, Repr

/-- Errors the underlying SQL engine raises; these propagate to the caller
unmodified (spec section 7, taxonomy (b)). -/
inductive SqlError
  | tableExists (name : String)
  | noSuchTable (name : String)
  | noSuchColumn (name : String)
  | columnCountMismatch
  | bindArityMismatch
deriving DecidableEq, Repr

/-- Look a table up by name in the schema. -/
def DB.lookupTable (db : DB) (n : String) : Option Table :=
  (db.tables.find? (fun e => e.1 == n)).map (fun e => e.2)

/-- `create_table(table_name, col_names)`: issues
CREATE TABLE table_name(col_names).  The column spec is caller-formatted text
in the source; we embed it already parsed into (name, type) pairs.  Fails if
the table already exists; otherwise appends an empty table to the schema. -/
def create_table (db : DB) (table_name : String) (col_names : List (String × String)) :
    Except SqlError DB :=
  if (db.lookupTable table_name).isSome then
    Except.error (SqlError.tableExists table_name)
  else
    Except.ok ⟨db.tables ++ [(table_name, ⟨col_names, []⟩)]⟩

/-- `get_table_list()`: SELECT name FROM sqlite_schema WHERE type = 'table';
yields the table names in catalog order. -/
def get_table_list (db : DB) : List String :=
  db.tables.map (fun e => e.1)

/-- `get_table_count(table_name)`: SELECT COUNT(*) FROM table_name; errors if
the table does not exist. -/
def get_table_count (db : DB) (table_name : String) : Except SqlError Nat :=
  match db.lookupTable table_name with
  | none => Except.error (SqlError.noSuchTable table_name)
  | some t => Except.ok t.rows.length

/-- PRAGMA table_info(table_name): one row per column, in declaration order.
We model the three leading fields (cid, name, type); the remaining fields
(notnull, dflt_value, pk) are not consulted by the code.  On a table that does
not exist the pragma yields no rows. -/
def pragma_table_info (db : DB) (table_name : String) : List (Nat × String × String) :=
  match db.lookupTable table_name with
  | none => []
  | some t => t.cols.enum.map (fun p => (p.1, p.2.1, p.2.2))

/-- One step of Python dict construction from a pair list: a later pair with
an already-present key overrides the stored value in place; a new key is
appended. -/
def pyDictStep (acc : List (String × String)) (p : String × String) :
    List (String × String) :=
  if acc.any (fun q => q.1 == p.1) then
    acc.map (fun q => if q.1 == p.1 then (q.1, p.2) else q)
  else acc ++ [p]

/-- Python `dict(pairs)` on a list of (key, value) pairs, as an association
list in insertion order with later duplicates overriding. -/
def pyDict (l : List (String × String)) : List (String × String) :=
  l.foldl pyDictStep []

/-- `get_table_cols(table_name)`: runs PRAGMA table_info, keeps (row[1],
row[2]) = (column name, declared type) of each row, and builds a dict. -/
def get_table_cols (db : DB) (table_name : String) : List (String × String) :=
  pyDict ((pragma_table_info db table_name).map (fun i => (i.2.1, i.2.2)))

/-- Append one row to the named table, leaving all other tables unchanged
(the effect of one prepared INSERT execution with successfully bound values). -/
def DB.insertRow (db : DB) (n : String) (r : List String) : DB :=
  ⟨db.tables.map (fun e => if e.1 == n then (e.1, ⟨e.2.cols, e.2.rows ++ [r]⟩) else e)⟩

/-- The `executemany` loop over the prepared INSERT: binds each entry in
order.  An entry whose arity differs from the placeholder count fails to bind
and raises at that point; entries already executed stay inserted (per-statement
autocommit). -/
def execMany (tn : String) (ph : Nat) : DB → List (List String) → DB × Option SqlError
  | db, [] => (db, none)
  | db, e :: es =>
    if e.length == ph then execMany tn ph (db.insertRow tn e) es
    else (db, some SqlError.bindArityMismatch)

/-- `populate_table(table_name, entries, placeholder_vals)`: prepares
INSERT into table_name values(placeholder_vals) and runs `executemany` over
the entries.  The placeholder spec is caller-formatted text such as "?, ?";
we embed it by its placeholder count.  Preparing fails if the table is
missing or the placeholder count differs from the table's column count
(INSERT without a column list requires one value per column); binding then
proceeds entry by entry.  Returns the new state and the error raised, if
any. -/
def populate_table (db : DB) (table_name : String) (entries : List (List String))
    (placeholderCount : Nat) : DB × Option SqlError :=
  match db.lookupTable table_name with
  | none => (db, some (SqlError.noSuchTable table_name))
  | some t =>
    if placeholderCount == t.cols.length then execMany table_name placeholderCount db entries
    else (db, some SqlError.columnCountMismatch)

/-! ## `create_tables_from_column` -/

/-- Python `str.removeprefix`: drops the prefix when present, otherwise
returns the string unchanged.  Python strings are code-point sequences, so we
work on the underlying character list: the test is prefix-of on the
characters and the removal drops that many leading characters. -/
def removeprefixStr (s p : String) : String :=
  if p.data.isPrefixOf s.data then String.mk (s.data.drop p.data.length) else s

/-- The inner `for p in prefixes` loop of `create_tables_from_column`: it
recomputes `i.removeprefix(p)` for each prefix and breaks at the first prefix
whose removal changes the string; when no prefix changes it, the last
assignment left the value equal to `i`. -/
def stripLoop (i : String) : List String → String
  | [] => i
  | p :: ps =>
    let t := removeprefixStr i p
    if t != i then t else stripLoop i ps

/-- The derived table tag for distinct value `i`: the prefix loop runs only
when the prefix list is nonempty, otherwise the tag is `i` itself. -/
def newTableTag (i : String) (prefixes : List String) : String :=
  if prefixes.length > 0 then stripLoop i prefixes else i

/-- The value of a row in the column at position `idx`. -/
def colValue (idx : Nat) (r : List String) : String := r.getD idx ""

/-- The position of a named column in a table (first match), or `none` when
the column does not exist (the SELECT on it would error). -/
def colIndex (t : Table) (c : String) : Option Nat :=
  t.cols.findIdx? (fun e => e.1 == c)

/-- SELECT DISTINCT with no ORDER BY, with seen values accumulated: keeps
the first occurrence of each value, in scan order.  (The engine does not
guarantee a particular order; we fix the scan order as the model's
implementation-defined choice.) -/
def distinctList : List String → List String → List String
  | _, [] => []
  | seen, v :: vs =>
    if v ∈ seen then distinctList seen vs else v :: distinctList (v :: seen) vs

/-- The distinct values of the column at position `idx` of a table, in the
order the distinct-value query returns them. -/
def distinctVals (t : Table) (idx : Nat) : List String :=
  distinctList [] (t.rows.map (colValue idx))

/-- The rows of `t` whose value in column `idx` equals `v`, with the source
column layout: the contents of
SELECT * FROM source WHERE col = 'v'. -/
def filterTable (t : Table) (idx : Nat) (v : String) : Table :=
  ⟨t.cols, t.rows.filter (fun r => colValue idx r == v)⟩

/-- CREATE TABLE newName AS SELECT * FROM src WHERE col = 'v': fails if
`newName` already exists (or `src` has vanished); otherwise appends the
filtered copy of the source table under the new name. -/
def createTableAsSelect (db : DB) (newName src : String) (idx : Nat) (v : String) :
    Except SqlError DB :=
  if (db.lookupTable newName).isSome then Except.error (SqlError.tableExists newName)
  else
    match db.lookupTable src with
    | none => Except.error (SqlError.noSuchTable src)
    | some t => Except.ok ⟨db.tables ++ [(newName, filterTable t idx v)]⟩

/-- The `for i in subtable_names` loop of `create_tables_from_column`:
strips the tag, issues the CREATE TABLE ... AS SELECT, and appends the tag to
`created_tables`.  An engine error propagates immediately: the tables created
so far remain in the database, but the in-progress name list is lost with the
raised exception. -/
def ctfcLoop (tn : String) (idx : Nat) (prefixes : List String) :
    DB → List String → List String → DB × Except SqlError (List String)
  | db, created, [] => (db, Except.ok created)
  | db, created, v :: vs =>
    let tag := newTableTag v prefixes
    match createTableAsSelect db tag tn idx v with
    | Except.error e => (db, Except.error e)
    | Except.ok db1 => ctfcLoop tn idx prefixes db1 (created ++ [tag]) vs

/-- `create_tables_from_column(table_name, col_name, prefixes)`: queries the
distinct values of the grouping column (erroring if the table or column is
missing), then creates one derived table per distinct value and returns the
list of created table names.  The result is the new database state paired
with the returned list or the raised error. -/
def create_tables_from_column (db : DB) (table_name col_name : String)
    (prefixes : List String) : DB × Except SqlError (List String) :=
  match db.lookupTable table_name with
  | none => (db, Except.error (SqlError.noSuchTable table_name))
  | some t =>
    match colIndex t col_name with
    | none => (db, Except.error (SqlError.noSuchColumn col_name))
    | some idx => ctfcLoop table_name idx prefixes db [] (distinctVals t idx)

/-! ## Helper lemmas -/

/-- Looking up in a schema extended on the right first consults the old
schema. -/
theorem lookupTable_append (db : DB) (es : List (String × Table)) (n : String) :
    (DB.mk (db.tables ++ es)).lookupTable n =
      ((db.lookupTable n).or ((DB.mk es).lookupTable n)) := by
  unfold DB.lookupTable
  rw [List.find?_append]
  cases db.tables.find? (fun e => e.1 == n) <;> simp

/-- A table present before stays present (with the same contents) after any
tables are appended to the schema. -/
theorem lookupTable_append_of_some {db : DB} {es : List (String × Table)} {n : String}
    {t : Table} (h : db.lookupTable n = some t) :
    (DB.mk (db.tables ++ es)).lookupTable n = some t := by
  rw [lookupTable_append, h]
  rfl

/-- Appending a fresh table makes it visible under its name. -/
theorem lookupTable_append_fresh {db : DB} {n : String} {t : Table}
    (h : db.lookupTable n = none) :
    (DB.mk (db.tables ++ [(n, t)])).lookupTable n = some t := by
  rw [lookupTable_append, h]
  simp [DB.lookupTable]

/-- A name absent from the schema heads no entry of the table list. -/
theorem not_mem_table_list_of_lookup_none {db : DB} {n : String}
    (h : db.lookupTable n = none) : n ∉ get_table_list db := by
  unfold DB.lookupTable at h
  rcases hf : db.tables.find? (fun e => e.1 == n) with _ | e
  · rw [List.find?_eq_none] at hf
    simp only [get_table_list, List.mem_map]
    rintro ⟨e, he, rfl⟩
    exact hf e he (by simp)
  · rw [hf] at h
    simp at h

/-- The prefix loop computes: remove the first listed prefix whose removal
changes the string, and leave the string unchanged when none does. -/
theorem stripLoop_eq_find (v : String) (ps : List String) :
    stripLoop v ps =
      ((ps.find? (fun p => removeprefixStr v p != v)).map
          (fun p => removeprefixStr v p)).getD v := by
  induction ps with
  | nil => simp [stripLoop]
  | cons p ps ih =>
    by_cases h : removeprefixStr v p = v
    · simp [stripLoop, List.find?_cons, h, ih]
    · simp [stripLoop, List.find?_cons, h]

/-- The length guard in the source is redundant: the loop over the empty
prefix list leaves the tag unchanged as well. -/
theorem newTableTag_eq_stripLoop (v : String) (ps : List String) :
    newTableTag v ps = stripLoop v ps := by
  cases ps <;> simp [newTableTag, stripLoop]

/-! ## Claim theorems -/

/-- Claim C1: exiting the session scope closes the cursor and then the
connection; when the cursor or the connection is absent, the try block raises
`AttributeError`, which `__exit__` swallows: it reports the diagnostic as its
last action and returns `True` (a successfully returned value, so nothing is
raised to the caller). -/
theorem sessionExit_contract (conn cursor : Option Unit) :
    (conn.isSome → cursor.isSome →
      (sessionExit ⟨conn, cursor⟩).1 = [ExitEvent.closedCursor, ExitEvent.closedConn] ∧
      (sessionExit ⟨conn, cursor⟩).2 = none) ∧
    ((conn = none ∨ cursor = none) →
      (exitTryBlock ⟨conn, cursor⟩).2 = some PyError.attributeError ∧
      (sessionExit ⟨conn, cursor⟩).2 = some true ∧
      (sessionExit ⟨conn, cursor⟩).1.getLast? = some ExitEvent.diagnostic) := by
  cases conn <;> cases cursor <;> simp [sessionExit, exitTryBlock]

/-- Witness for C1: a session that was never opened (both attributes still
`None`) exits with the diagnostic reported and `True` returned. -/
theorem sessionExit_contract_witness :
    (exitTryBlock ⟨none, none⟩).2 = some PyError.attributeError ∧
    (sessionExit ⟨none, none⟩).2 = some true ∧
    (sessionExit ⟨none, none⟩).1.getLast? = some ExitEvent.diagnostic :=
  (sessionExit_contract none none).2 (Or.inl rfl)

/-- Claim C8: when the cursor or connection is absent at scope exit,
`__exit__` returns `True` after catching the teardown error, and under the
`with`-statement protocol that truthy return suppresses any exception the
scope body raised: the caller observes no exception. -/
theorem sessionExit_swallows_body_exception (s : SessionState) (e : String)
    (h : s.cursor = none ∨ s.conn = none) :
    (sessionExit s).2 = some true ∧ withScopeResult s (some e) = none := by
  obtain ⟨conn, cursor⟩ := s
  have hret : (sessionExit ⟨conn, cursor⟩).2 = some true := by
    cases conn <;> cases cursor <;> simp_all [sessionExit, exitTryBlock]
  exact ⟨hret, by simp [withScopeResult, hret]⟩

/-- Witness for C8: a never-opened session suppresses a body exception. -/
theorem sessionExit_swallows_body_exception_witness :
    (sessionExit sessionInit).2 = some true ∧
    withScopeResult sessionInit (some "boom") = none :=
  sessionExit_swallows_body_exception sessionInit "boom" (Or.inl rfl)

/-- Claim C9: on a table name absent from the schema, `get_table_cols` does
not fail (it is a total function in the model): the introspection pragma
yields no rows and the result is the empty mapping. -/
theorem get_table_cols_missing (db : DB) (tn : String)
    (h : db.lookupTable tn = none) :
    get_table_cols db tn = [] := by
  simp [get_table_cols, pragma_table_info, h, pyDict]

/-- Witness for C9: the empty database has no table "nope". -/
theorem get_table_cols_missing_witness :
    get_table_cols ⟨[]⟩ "nope" = [] :=
  get_table_cols_missing ⟨[]⟩ "nope" rfl

/-- Claim C2: the derived table tag for a distinct value removes the first
prefix in the list whose removal changes the value; when no prefix matches
(including the empty list) the tag is the value unchanged.  In particular,
with prefixes ["HKWorkoutActivityType"], "HKWorkoutActivityTypeRunning"
yields "Running" and "Barre" yields "Barre". -/
theorem newTableTag_first_matching :
    (∀ (v : String) (ps : List String),
        newTableTag v ps =
          ((ps.find? (fun p => removeprefixStr v p != v)).map
              (fun p => removeprefixStr v p)).getD v) ∧
    newTableTag "HKWorkoutActivityTypeRunning" ["HKWorkoutActivityType"] = "Running" ∧
    newTableTag "Barre" ["HKWorkoutActivityType"] = "Barre" :=
  ⟨fun v ps => (newTableTag_eq_stripLoop v ps).trans (stripLoop_eq_find v ps),
   by decide, by decide⟩

/-- Claim C5: creating a table under a name not yet in the schema succeeds,
and the table list then contains that name exactly once. -/
theorem create_table_list_once (db : DB) (tn : String)
    (cols : List (String × String)) (hfresh : db.lookupTable tn = none)
    (db1 : DB) (h : create_table db tn cols = Except.ok db1) :
    (get_table_list db1).count tn = 1 := by
  unfold create_table at h
  rw [hfresh] at h
  simp only [Option.isSome_none, Bool.false_eq_true, if_false, Except.ok.injEq] at h
  subst h
  have hnot : tn ∉ get_table_list db := not_mem_table_list_of_lookup_none hfresh
  simp only [get_table_list, List.map_append, List.count_append, List.map_cons,
    List.map_nil] at *
  rw [List.count_eq_zero.mpr hnot, List.count_singleton]
  simp

/-- Witness for C5: creating "T" in the empty database lists "T" once. -/
theorem create_table_list_once_witness :
    (get_table_list ⟨[("T", ⟨[("a", "INT")], []⟩)]⟩).count "T" = 1 :=
  create_table_list_once ⟨[]⟩ "T" [("a", "INT")] rfl
    ⟨[("T", ⟨[("a", "INT")], []⟩)]⟩ rfl

/-- Building a Python dict from pairs whose keys are pairwise distinct and
disjoint from the keys already stored appends the pairs in order. -/
theorem pyDict_loop_nodup (l : List (String × String)) :
    ∀ acc : List (String × String),
      (∀ p ∈ l, ∀ q ∈ acc, q.1 ≠ p.1) → (l.map Prod.fst).Nodup →
      l.foldl pyDictStep acc = acc ++ l := by
  induction l with
  | nil => intro acc _ _; simp
  | cons p l ih =>
    intro acc hdisj hnodup
    have hany : acc.any (fun q => q.1 == p.1) = false := by
      rw [List.any_eq_false]
      intro q hq
      simpa using hdisj p (List.mem_cons_self p l) q hq
    rw [List.foldl_cons]
    rw [show pyDictStep acc p = acc ++ [p] by simp [pyDictStep, hany]]
    rw [List.map_cons, List.nodup_cons] at hnodup
    rw [ih (acc ++ [p]) ?_ hnodup.2]
    · simp
    · intro p' hp' q hq
      rcases List.mem_append.mp hq with hq | hq
      · exact hdisj p' (List.mem_cons_of_mem p hp') q hq
      · rw [List.mem_singleton] at hq
        subst hq
        exact fun hc => hnodup.1 (hc ▸ List.mem_map_of_mem Prod.fst hp')

/-- A dict built from pairs with pairwise-distinct keys is those pairs. -/
theorem pyDict_nodup (l : List (String × String))
    (h : (l.map Prod.fst).Nodup) : pyDict l = l := by
  unfold pyDict
  rw [pyDict_loop_nodup l [] (by simp) h]
  simp

/-- Claim C6: on an existing table (whose column names are distinct, as the
engine guarantees for any created table), `get_table_cols` returns the
mapping sending each column name to its declared type string. -/
theorem get_table_cols_mapping (db : DB) (tn : String) (t : Table)
    (ht : db.lookupTable tn = some t)
    (hnodup : (t.cols.map Prod.fst).Nodup) :
    get_table_cols db tn = t.cols := by
  unfold get_table_cols pragma_table_info
  rw [ht]
  have hproj : (t.cols.enum.map (fun p => (p.1, p.2.1, p.2.2))).map
      (fun i => (i.2.1, i.2.2)) = t.cols := by
    rw [List.map_map]
    have : ((fun i => (i.2.1, i.2.2)) ∘ fun p : Nat × String × String =>
        (p.1, p.2.1, p.2.2)) = Prod.snd := by
      funext p
      rfl
    rw [this, List.enum_map_snd]
  rw [hproj, pyDict_nodup t.cols hnodup]

/-- Witness for C6: a table with columns (id INTEGER, name TEXT) yields the
mapping id to INTEGER, name to TEXT. -/
theorem get_table_cols_mapping_witness :
    get_table_cols ⟨[("T", ⟨[("id", "INTEGER"), ("name", "TEXT")], []⟩)]⟩ "T" =
      [("id", "INTEGER"), ("name", "TEXT")] :=
  get_table_cols_mapping ⟨[("T", ⟨[("id", "INTEGER"), ("name", "TEXT")], []⟩)]⟩ "T"
    ⟨[("id", "INTEGER"), ("name", "TEXT")], []⟩ rfl (by decide)

/-- Claim C10: on a source table with no rows (and a valid grouping column),
`create_tables_from_column` creates nothing: the state is unchanged, the
returned list is empty, and the table list is exactly what it was. -/
theorem ctfc_empty_source (db : DB) (tn cn : String) (ps : List String)
    (t : Table) (idx : Nat) (ht : db.lookupTable tn = some t)
    (hrows : t.rows = []) (hidx : colIndex t cn = some idx) :
    create_tables_from_column db tn cn ps = (db, Except.ok []) ∧
    get_table_list (create_tables_from_column db tn cn ps).1 = get_table_list db := by
  have hmain : create_tables_from_column db tn cn ps = (db, Except.ok []) := by
    unfold create_tables_from_column
    simp only [ht, hidx]
    simp [distinctVals, hrows, distinctList, ctfcLoop]
  exact ⟨hmain, by rw [hmain]⟩

/-- Witness for C10: splitting an empty table creates no tables. -/
theorem ctfc_empty_source_witness :
    create_tables_from_column ⟨[("T", ⟨[("a", "INT")], []⟩)]⟩ "T" "a" ["HK"] =
      (⟨[("T", ⟨[("a", "INT")], []⟩)]⟩, Except.ok []) ∧
    get_table_list
        (create_tables_from_column ⟨[("T", ⟨[("a", "INT")], []⟩)]⟩ "T" "a" ["HK"]).1 =
      get_table_list ⟨[("T", ⟨[("a", "INT")], []⟩)]⟩ :=
  ctfc_empty_source ⟨[("T", ⟨[("a", "INT")], []⟩)]⟩ "T" "a" ["HK"]
    ⟨[("a", "INT")], []⟩ 0 rfl rfl rfl

/-- When the loop of `create_tables_from_column` returns normally, the list
it returns is one stripped tag per processed value, in processing order,
appended to the names accumulated so far. -/
theorem ctfcLoop_names (tn : String) (idx : Nat) (ps : List String) :
    ∀ (vs : List String) (db : DB) (created : List String) (db1 : DB)
      (names : List String),
      ctfcLoop tn idx ps db created vs = (db1, Except.ok names) →
      names = created ++ vs.map (fun v => newTableTag v ps) := by
  intro vs
  induction vs with
  | nil =>
    intro db created db1 names h
    simp only [ctfcLoop, Prod.mk.injEq, Except.ok.injEq] at h
    simp [h.2]
  | cons v vs ih =>
    intro db created db1 names h
    simp only [ctfcLoop] at h
    rcases hc : createTableAsSelect db (newTableTag v ps) tn idx v with e | db2
    · rw [hc] at h
      simp at h
    · rw [hc] at h
      have := ih db2 (created ++ [newTableTag v ps]) db1 names h
      simpa using this

/-- The loop of `create_tables_from_column` only appends tables: any table
visible before the loop is visible, unchanged, afterwards (whether or not the
loop finished normally). -/
theorem ctfcLoop_preserves (tn : String) (idx : Nat) (ps : List String) :
    ∀ (vs : List String) (db : DB) (created : List String) (db1 : DB)
      (r : Except SqlError (List String)),
      ctfcLoop tn idx ps db created vs = (db1, r) →
      ∀ (n : String) (t : Table), db.lookupTable n = some t →
        db1.lookupTable n = some t := by
  intro vs
  induction vs with
  | nil =>
    intro db created db1 r h n t hn
    simp only [ctfcLoop, Prod.mk.injEq] at h
    rw [← h.1]
    exact hn
  | cons v vs ih =>
    intro db created db1 r h n t hn
    simp only [ctfcLoop] at h
    rcases hc : createTableAsSelect db (newTableTag v ps) tn idx v with e | db2
    · rw [hc] at h
      simp only [Prod.mk.injEq] at h
      rw [← h.1]
      exact hn
    · rw [hc] at h
      unfold createTableAsSelect at hc
      by_cases hex : (db.lookupTable (newTableTag v ps)).isSome
      · rw [if_pos hex] at hc
        cases hc
      · rw [if_neg hex] at hc
        rcases hsrc : db.lookupTable tn with _ | tsrc <;> rw [hsrc] at hc
        · cases hc
        · cases hc
          exact ih _ (created ++ [newTableTag v ps]) db1 r h n t
            (lookupTable_append_of_some hn)

/-- When the loop returns normally, each processed value has a table under
its stripped tag in the final state, holding the rows of the source table
(as read at creation time) filtered to that value. -/
theorem ctfcLoop_creates (tn : String) (idx : Nat) (ps : List String) (t : Table) :
    ∀ (vs : List String) (db : DB) (created : List String) (db1 : DB)
      (names : List String),
      db.lookupTable tn = some t →
      ctfcLoop tn idx ps db created vs = (db1, Except.ok names) →
      ∀ v ∈ vs, db1.lookupTable (newTableTag v ps) = some (filterTable t idx v) := by
  intro vs
  induction vs with
  | nil =>
    intro db created db1 names _ _ v hv
    exact absurd hv (List.not_mem_nil v)
  | cons v0 vs ih =>
    intro db created db1 names hsrc h v hv
    simp only [ctfcLoop] at h
    rcases hc : createTableAsSelect db (newTableTag v0 ps) tn idx v0 with e | db2
    · rw [hc] at h
      simp at h
    · rw [hc] at h
      unfold createTableAsSelect at hc
      by_cases hex : (db.lookupTable (newTableTag v0 ps)).isSome
      · rw [if_pos hex] at hc
        cases hc
      · rw [if_neg hex] at hc
        rw [hsrc] at hc
        cases hc
        rcases List.mem_cons.mp hv with hveq | hvtl
        · subst hveq
          have hfresh : db.lookupTable (newTableTag v ps) = none := by
            rcases hl : db.lookupTable (newTableTag v ps) with _ | u
            · rfl
            · rw [hl] at hex
              simp at hex
          have hnow : (DB.mk (db.tables ++ [(newTableTag v ps, filterTable t idx v)])).lookupTable
              (newTableTag v ps) = some (filterTable t idx v) :=
            lookupTable_append_fresh hfresh
          exact ctfcLoop_preserves tn idx ps vs _ _ db1 (Except.ok names) h _ _ hnow
        · exact ih _ (created ++ [newTableTag v0 ps]) db1 names
            (lookupTable_append_of_some hsrc) h v hvtl

/-- Claim C7: a normal return of `create_tables_from_column` is the list of
derived table names, one per distinct value of the grouping column, in the
order the distinct-value query returned the values. -/
theorem ctfc_names_order (db : DB) (tn cn : String) (ps : List String)
    (t : Table) (idx : Nat) (ht : db.lookupTable tn = some t)
    (hidx : colIndex t cn = some idx) (db1 : DB) (names : List String)
    (hok : create_tables_from_column db tn cn ps = (db1, Except.ok names)) :
    names = (distinctVals t idx).map (fun v => newTableTag v ps) := by
  unfold create_tables_from_column at hok
  rw [ht] at hok
  simp only at hok
  rw [hidx] at hok
  simpa using ctfcLoop_names tn idx ps (distinctVals t idx) db [] db1 names hok

/-- Witness for C7: splitting a two-valued column returns the two names in
query order. -/
theorem ctfc_names_order_witness :
    ["1", "2"] =
      (distinctVals ⟨[("a", "INT"), ("b", "TEXT")],
          [["1", "x"], ["2", "y"], ["1", "z"]]⟩ 0).map (fun v => newTableTag v []) :=
  ctfc_names_order
    ⟨[("T", ⟨[("a", "INT"), ("b", "TEXT")], [["1", "x"], ["2", "y"], ["1", "z"]]⟩)]⟩
    "T" "a" [] ⟨[("a", "INT"), ("b", "TEXT")], [["1", "x"], ["2", "y"], ["1", "z"]]⟩ 0
    rfl rfl
    ⟨[("T", ⟨[("a", "INT"), ("b", "TEXT")], [["1", "x"], ["2", "y"], ["1", "z"]]⟩),
      ("1", ⟨[("a", "INT"), ("b", "TEXT")], [["1", "x"], ["1", "z"]]⟩),
      ("2", ⟨[("a", "INT"), ("b", "TEXT")], [["2", "y"]]⟩)]⟩
    ["1", "2"] rfl

/-- Claim C3: after a normal return of `create_tables_from_column`, the
derived table for each distinct value holds exactly the source rows whose
grouping-column value equals that value, so its row count is the count of
matching source rows. -/
theorem ctfc_derived_table_rows (db : DB) (tn cn : String) (ps : List String)
    (t : Table) (idx : Nat) (ht : db.lookupTable tn = some t)
    (hidx : colIndex t cn = some idx) (db1 : DB) (names : List String)
    (hok : create_tables_from_column db tn cn ps = (db1, Except.ok names))
    (v : String) (hv : v ∈ distinctVals t idx) :
    db1.lookupTable (newTableTag v ps) = some (filterTable t idx v) ∧
    get_table_count db1 (newTableTag v ps) =
      Except.ok (t.rows.filter (fun r => colValue idx r == v)).length := by
  unfold create_tables_from_column at hok
  rw [ht] at hok
  simp only at hok
  rw [hidx] at hok
  have hmain := ctfcLoop_creates tn idx ps t (distinctVals t idx) db [] db1 names
    ht hok v hv
  refine ⟨hmain, ?_⟩
  unfold get_table_count
  rw [hmain]
  rfl

/-- Witness for C3: the derived table for value "1" holds the two matching
source rows, so its count is 2. -/
theorem ctfc_derived_table_rows_witness :
    (DB.lookupTable
        ⟨[("T", ⟨[("a", "INT"), ("b", "TEXT")], [["1", "x"], ["2", "y"], ["1", "z"]]⟩),
          ("1", ⟨[("a", "INT"), ("b", "TEXT")], [["1", "x"], ["1", "z"]]⟩),
          ("2", ⟨[("a", "INT"), ("b", "TEXT")], [["2", "y"]]⟩)]⟩
        (newTableTag "1" []) =
      some (filterTable
        ⟨[("a", "INT"), ("b", "TEXT")], [["1", "x"], ["2", "y"], ["1", "z"]]⟩ 0 "1")) ∧
    get_table_count
        ⟨[("T", ⟨[("a", "INT"), ("b", "TEXT")], [["1", "x"], ["2", "y"], ["1", "z"]]⟩),
          ("1", ⟨[("a", "INT"), ("b", "TEXT")], [["1", "x"], ["1", "z"]]⟩),
          ("2", ⟨[("a", "INT"), ("b", "TEXT")], [["2", "y"]]⟩)]⟩
        (newTableTag "1" []) =
      Except.ok
        (([["1", "x"], ["2", "y"], ["1", "z"]] :
            List (List String)).filter (fun r => colValue 0 r == "1")).length :=
  ctfc_derived_table_rows
    ⟨[("T", ⟨[("a", "INT"), ("b", "TEXT")], [["1", "x"], ["2", "y"], ["1", "z"]]⟩)]⟩
    "T" "a" [] ⟨[("a", "INT"), ("b", "TEXT")], [["1", "x"], ["2", "y"], ["1", "z"]]⟩ 0
    rfl rfl
    ⟨[("T", ⟨[("a", "INT"), ("b", "TEXT")], [["1", "x"], ["2", "y"], ["1", "z"]]⟩),
      ("1", ⟨[("a", "INT"), ("b", "TEXT")], [["1", "x"], ["1", "z"]]⟩),
      ("2", ⟨[("a", "INT"), ("b", "TEXT")], [["2", "y"]]⟩)]⟩
    ["1", "2"] rfl "1" (by decide)

/-- Inserting a row into the named table updates exactly that table in the
schema: the lookup result gains the row at the end of its row list. -/
theorem find?_insert_list (n : String) (r : List String) :
    ∀ ts : List (String × Table),
      (ts.map (fun e =>
          if e.1 == n then (e.1, Table.mk e.2.cols (e.2.rows ++ [r])) else e)).find?
          (fun e => e.1 == n) =
        (ts.find? (fun e => e.1 == n)).map
          (fun e => (e.1, Table.mk e.2.cols (e.2.rows ++ [r]))) := by
  intro ts
  induction ts with
  | nil => rfl
  | cons e ts ih =>
    by_cases h : (e.1 == n) = true
    · rw [List.map_cons, if_pos h, List.find?_cons, List.find?_cons]
      simp only [h]
      rfl
    · rw [List.map_cons, if_neg h, List.find?_cons, List.find?_cons]
      have hb : (e.1 == n) = false := by
        simpa using h
      simp only [hb]
      exact ih

/-- `DB.insertRow` seen through `lookupTable` at the same name. -/
theorem lookupTable_insertRow_self (db : DB) (n : String) (r : List String) :
    (db.insertRow n r).lookupTable n =
      (db.lookupTable n).map (fun t => Table.mk t.cols (t.rows ++ [r])) := by
  unfold DB.insertRow DB.lookupTable
  rw [find?_insert_list n r db.tables]
  cases db.tables.find? (fun e => e.1 == n) <;> rfl

/-- Binding a batch of entries of the right arity raises nothing and appends
each entry, in order, to the rows of the target table. -/
theorem execMany_lookup (tn : String) (ph : Nat) :
    ∀ (entries : List (List String)) (db : DB) (t : Table),
      db.lookupTable tn = some t →
      (∀ e ∈ entries, e.length = ph) →
      (execMany tn ph db entries).2 = none ∧
      (execMany tn ph db entries).1.lookupTable tn =
        some (Table.mk t.cols (t.rows ++ entries)) := by
  intro entries
  induction entries with
  | nil =>
    intro db t ht _
    exact ⟨rfl, by simpa using ht⟩
  | cons e es ih =>
    intro db t ht ha
    have he : (e.length == ph) = true := by
      simpa using ha e (List.mem_cons_self e es)
    have hlook : (db.insertRow tn e).lookupTable tn =
        some (Table.mk t.cols (t.rows ++ [e])) := by
      rw [lookupTable_insertRow_self, ht]
      rfl
    have hrec := ih (db.insertRow tn e) (Table.mk t.cols (t.rows ++ [e])) hlook
      (fun e' he' => ha e' (List.mem_cons_of_mem e he'))
    rw [show execMany tn ph db (e :: es) = execMany tn ph (db.insertRow tn e) es by
      simp [execMany, he]]
    exact ⟨hrec.1, by rw [hrec.2]; simp⟩

/-- One `populate_table` call on an existing table, with the placeholder
count equal to the column count and well-formed entries, raises nothing and
appends the batch to the table rows. -/
theorem populate_table_lookup (db : DB) (tn : String) (t : Table)
    (b : List (List String)) (ht : db.lookupTable tn = some t)
    (ha : ∀ e ∈ b, e.length = t.cols.length) :
    (populate_table db tn b t.cols.length).2 = none ∧
    (populate_table db tn b t.cols.length).1.lookupTable tn =
      some (Table.mk t.cols (t.rows ++ b)) := by
  unfold populate_table
  rw [ht]
  simp only [beq_self_eq_true, if_true]
  exact execMany_lookup tn t.cols.length b db t ht ha

/-- Folding a sequence of `populate_table` calls over batches accumulates
all of their rows, in order. -/
theorem populate_fold_lookup (tn : String) (cols : List (String × String)) :
    ∀ (batches : List (List (List String))) (db : DB) (rows : List (List String)),
      db.lookupTable tn = some (Table.mk cols rows) →
      (∀ b ∈ batches, ∀ e ∈ b, e.length = cols.length) →
      (batches.foldl (fun d b => (populate_table d tn b cols.length).1)
          db).lookupTable tn =
        some (Table.mk cols (rows ++ batches.flatten)) := by
  intro batches
  induction batches with
  | nil =>
    intro db rows ht _
    simpa using ht
  | cons b bs ih =>
    intro db rows ht ha
    rw [List.foldl_cons]
    have hstep := populate_table_lookup db tn (Table.mk cols rows) b ht
      (fun e he => ha b (List.mem_cons_self b bs) e he)
    have hrest := ih _ (rows ++ b) hstep.2
      (fun b' hb' => ha b' (List.mem_cons_of_mem b hb'))
    rw [hrest]
    simp [List.flatten_cons]

/-- Claim C4: a table freshly made by `create_table` has row count zero, and
after any sequence of `populate_table` calls with well-formed batches the row
count is the total number of rows inserted across those calls. -/
theorem populate_count_cumulative (db : DB) (tn : String)
    (cols : List (String × String)) (batches : List (List (List String)))
    (hfresh : db.lookupTable tn = none) (db1 : DB)
    (h1 : create_table db tn cols = Except.ok db1)
    (ha : ∀ b ∈ batches, ∀ e ∈ b, e.length = cols.length) :
    get_table_count db1 tn = Except.ok 0 ∧
    get_table_count
        (batches.foldl (fun d b => (populate_table d tn b cols.length).1) db1) tn =
      Except.ok ((batches.map List.length).sum) := by
  unfold create_table at h1
  rw [hfresh] at h1
  simp only [Option.isSome_none, Bool.false_eq_true, if_false, Except.ok.injEq] at h1
  subst h1
  have h0 : (DB.mk (db.tables ++ [(tn, ⟨cols, []⟩)])).lookupTable tn =
      some (Table.mk cols []) := lookupTable_append_fresh hfresh
  constructor
  · simp [get_table_count, h0]
  · have hfold := populate_fold_lookup tn cols batches _ [] h0 ha
    unfold get_table_count
    rw [hfold]
    simp [List.length_flatten]

/-- Witness for C4: creating T(a, b), then inserting a batch of two rows and
a batch of one row, gives counts 0 and then 3. -/
theorem populate_count_cumulative_witness :
    get_table_count ⟨[("T", ⟨[("a", "INT"), ("b", "TEXT")], []⟩)]⟩ "T" =
      Except.ok 0 ∧
    get_table_count
        (([[["1", "x"], ["2", "y"]], [["3", "z"]]] :
            List (List (List String))).foldl
          (fun d b => (populate_table d "T" b ([("a", "INT"), ("b", "TEXT")] :
              List (String × String)).length).1)
          ⟨[("T", ⟨[("a", "INT"), ("b", "TEXT")], []⟩)]⟩) "T" =
      Except.ok ((([[["1", "x"], ["2", "y"]], [["3", "z"]]] :
          List (List (List String))).map List.length).sum) :=
  populate_count_cumulative ⟨[]⟩ "T" [("a", "INT"), ("b", "TEXT")]
    [[["1", "x"], ["2", "y"]], [["3", "z"]]] rfl
    ⟨[("T", ⟨[("a", "INT"), ("b", "TEXT")], []⟩)]⟩ rfl (by decide)

end Runnersdash
